import Mathlib

/-!
Shallow embedding of `src/include/sdatabase.hpp` (sdatabase: a database
abstraction over SQLite3 and PostgreSQL).

Program text (SQL statements, file paths, column names, cell values) is
modelled as byte sequences `List Nat`, because the sanitizer operates on
raw bytes.  The two native engines (sqlite3, libpq), iconv and the file
system are external collaborators of the repository; they are modelled by
explicit oracle structures (`SqliteBehav`, `PGConn`, `FS`) whose fields
describe the engine's response to each call the code makes, following the
engines' documented behavior.  Every C++ function the claims touch is
translated line by line into a Lean definition of the same name.
-/

set_option synthInstance.maxSize 1000

namespace Sdatabase

/-- Bytes of a C++ `std::string` literal.  Source strings are byte sequences. -/
def strBytes (s : String) : List Nat := s.data.map Char.toNat

/-- C `isdigit` on a byte (ASCII digits 48..57). -/
def isdigit (b : Nat) : Bool := 48 ≤ b && b ≤ 57

/-- The byte of the dollar sigil used by the neutral `$n` placeholder form. -/
def dollarB : Nat := 36

/-- The byte of the question-mark sigil used by the neutral `?` placeholder form. -/
def qmarkB : Nat := 63

/-- The byte of an ASCII apostrophe (used in SQL message fixtures). -/
def aposB : Nat := 39

/-- True when the byte list begins with an ASCII digit. -/
def startsWithDigit : List Nat → Bool
  | [] => false
  | b :: _ => isdigit b

/-- Continuation byte of a UTF-8 sequence (0x80..0xBF). -/
def isCont (b : Nat) : Bool := 0x80 ≤ b && b ≤ 0xBF

/-- A valid 2-byte UTF-8 sequence: lead `b`, continuation `c1`. -/
def utf8Valid2 (b c1 : Nat) : Bool :=
  0xC2 ≤ b && b ≤ 0xDF && isCont c1

/-- A valid 3-byte UTF-8 sequence, with the overlong (0xE0) and surrogate
(0xED) bounds on the first continuation byte. -/
def utf8Valid3 (b c1 c2 : Nat) : Bool :=
  0xE0 ≤ b && b ≤ 0xEF && isCont c1 && isCont c2
    && (!(b == 0xE0) || 0xA0 ≤ c1) && (!(b == 0xED) || c1 ≤ 0x9F)

/-- A valid 4-byte UTF-8 sequence, with the overlong (0xF0) and
out-of-range (0xF4) bounds on the first continuation byte. -/
def utf8Valid4 (b c1 c2 c3 : Nat) : Bool :=
  0xF0 ≤ b && b ≤ 0xF4 && isCont c1 && isCont c2 && isCont c3
    && (!(b == 0xF0) || 0x90 ≤ c1) && (!(b == 0xF4) || c1 ≤ 0x8F)

/-- Model of `remove_non_utf8` (the Text Sanitizer, sdatabase.hpp:81-117 and
313-349): iconv from UTF-8 to UTF-8//IGNORE copies each valid UTF-8
sequence through together with its continuation bytes; on EILSEQ (no valid
sequence starts at the current byte) or EINVAL (a truncated sequence at the
end of the input) the code advances the input pointer by exactly one byte
and retries (`++inbuf; --inbytesleft;`).  Buffer growth on E2BIG is
invisible in the result and is not modelled.  The cases are spelled out by
how many bytes remain so that the recursion is structural. -/
def remove_non_utf8 : List Nat → List Nat
  | [] => []
  | [b] => if b < 0x80 then [b] else []
  | [b, c1] =>
    if b < 0x80 then b :: remove_non_utf8 [c1]
    else if utf8Valid2 b c1 then [b, c1]
    else remove_non_utf8 [c1]
  | [b, c1, c2] =>
    if b < 0x80 then b :: remove_non_utf8 [c1, c2]
    else if utf8Valid2 b c1 then b :: c1 :: remove_non_utf8 [c2]
    else if utf8Valid3 b c1 c2 then [b, c1, c2]
    else remove_non_utf8 [c1, c2]
  | b :: c1 :: c2 :: c3 :: r =>
    if b < 0x80 then b :: remove_non_utf8 (c1 :: c2 :: c3 :: r)
    else if utf8Valid2 b c1 then b :: c1 :: remove_non_utf8 (c2 :: c3 :: r)
    else if utf8Valid3 b c1 c2 then b :: c1 :: c2 :: remove_non_utf8 (c3 :: r)
    else if utf8Valid4 b c1 c2 c3 then b :: c1 :: c2 :: c3 :: remove_non_utf8 r
    else remove_non_utf8 (c1 :: c2 :: c3 :: r)
termination_by structural l => l

/-- Scan automaton of the placeholder rewrite loop of
`SQLite3Database::exec` and `SQLite3Database::query` (sdatabase.hpp:162-172
and 197-207).  The C++ loop walks the string by index with one character of
lookahead: a `$` followed by at least one digit becomes `?` and the whole
digit run is skipped (`while (... isdigit(query[i + 1])) ++i;`); every other
character is copied verbatim.  The same scan, one character per step, with
the loop position made explicit: state 0 is the top of the loop; state 1
means the previous character was a `$` whose lookahead is still pending
(emitted verbatim unless a digit follows); state 2 means the scan is inside
the digit run being skipped (a following `$` re-enters state 1, as the loop
index lands on it). -/
def rewriteDollarGo : Nat → List Nat → List Nat
  | 0, [] => []
  | 0, c :: rest => if c = dollarB then rewriteDollarGo 1 rest else c :: rewriteDollarGo 0 rest
  | 1, [] => [dollarB]
  | 1, c :: rest =>
    if isdigit c then qmarkB :: rewriteDollarGo 2 rest
    else if c = dollarB then dollarB :: rewriteDollarGo 1 rest
    else dollarB :: c :: rewriteDollarGo 0 rest
  | 2, [] => []
  | 2, c :: rest =>
    if isdigit c then rewriteDollarGo 2 rest
    else if c = dollarB then rewriteDollarGo 1 rest
    else c :: rewriteDollarGo 0 rest
  | _ + 3, l => l

/-- The rewritten statement `nq` both SQLite-side variadic templates build
from the incoming statement; see `rewriteDollarGo`. -/
def rewriteDollar (q : List Nat) : List Nat := rewriteDollarGo 0 q

/-- Decimal byte rendering of a natural number (`std::to_string`). -/
def natBytes (n : Nat) : List Nat := strBytes (toString n)

/-- Decimal byte rendering of an integer (`std::to_string`). -/
def intBytes (i : Int) : List Nat := strBytes (toString i)

/-- Model of the placeholder rewrite loop of `PostgreSQLDatabase::exec` and
`PostgreSQLDatabase::query` (sdatabase.hpp:358-366 and 395-403): each `?` is
replaced by `$i` with `i` counting occurrences from 1; every other character
is copied verbatim. -/
def rewriteQmark : List Nat → Nat → List Nat
  | [], _ => []
  | c :: rest, i =>
    if c = qmarkB then dollarB :: (natBytes i ++ rewriteQmark rest (i + 1))
    else c :: rewriteQmark rest i

/-- A bound argument as the variadic templates accept it.  `int` and
`int64_t` arguments are both carried as `i64`; a `double` is carried by its
bit pattern, which no claim inspects; text (`std::string` or `const char*`)
is carried as raw bytes. -/
inductive Arg where
  | i64 (v : Int)
  | f64 (bits : Nat)
  | text (s : List Nat)
deriving DecidableEq

/-- A parameter as it reaches the sqlite3 bind API. -/
inductive BoundParam where
  | int (v : Int)
  | double (bits : Nat)
  | text (s : List Nat)
deriving DecidableEq

/-- Model of the `bind_parameter` overloads (sdatabase.hpp:121-154): numeric
arguments are bound as given; string arguments are passed through
`remove_non_utf8` and bound as text. -/
def bind_parameter : Arg → BoundParam
  | .i64 v => .int v
  | .f64 bits => .double bits
  | .text s => .text (remove_non_utf8 s)

/-- Model of the variadic `bind_parameters` (sdatabase.hpp:65-79, 119): the
arguments are bound one by one at consecutive indices starting from the
given index (the public callers start at 1). -/
def bind_parameters : List Arg → Nat → List (Nat × BoundParam)
  | [], _ => []
  | a :: rest, index => (index, bind_parameter a) :: bind_parameters rest (index + 1)

/-- Model of `PostgreSQLDatabase::to_string` (sdatabase.hpp:302-311): strings
pass through unchanged, anything else is rendered with `std::to_string`.
The text a double renders to is irrelevant to every claim; it is modelled
from the bit pattern. -/
def pgToString : Arg → List Nat
  | .i64 v => intBytes v
  | .f64 bits => natBytes bits
  | .text s => s

/-- One entry of the parameter vector built by `PostgreSQLDatabase::exec`
(sdatabase.hpp:368): `remove_non_utf8(to_string(args))...`. -/
def pgExecParamOf (a : Arg) : List Nat := remove_non_utf8 (pgToString a)

/-- One entry of the parameter vector built by `PostgreSQLDatabase::query`
(sdatabase.hpp:405): `to_string(args)...` with no sanitizer call. -/
def pgQueryParamOf (a : Arg) : List Nat := pgToString a

/-- A row as a native engine delivers it: column (name, value) pairs in the
engine's column order; a `none` value is SQL NULL (a NULL `char*` from
`sqlite3_column_text` / a null field in a `PGresult`). -/
abbrev EngineRow := List (List Nat × Option (List Nat))

/-- A materialized Result Row: `std::unordered_map<std::string, std::string>`
modelled as an association list in insertion order where assigning to an
existing key overwrites it. -/
abbrev Row := List (List Nat × List Nat)

/-- Assignment `m[k] = v` on the unordered-map model: overwrite the entry for
`k` when present, otherwise append it. -/
def assocSet (m : Row) (k v : List Nat) : Row :=
  match m with
  | [] => [(k, v)]
  | (k2, v2) :: rest => if k2 = k then (k, v) :: rest else (k2, v2) :: assocSet rest k v

/-- Model of `sdatabase::callback` (sdatabase.hpp:450-461) applied to one
row: `map[name[i]] = argv[i] ? argv[i] : ""`, a NULL value becomes empty
text. -/
def callbackRow (cols : EngineRow) : Row :=
  cols.foldl (fun acc p => assocSet acc p.1 (p.2.getD [])) []

/-- Model of the PostgreSQL row loop (sdatabase.hpp:422-428 and 680-686):
`row[PQfname(res, j)] = PQgetvalue(res, i, j)`; `PQgetvalue` yields the
empty string for a NULL field. -/
def pgRowOf (cols : EngineRow) : Row :=
  cols.foldl (fun acc p => assocSet acc p.1 (p.2.getD [])) []

/-- Failure conditions the modelled code can raise or run into. -/
inductive Fault where
  /-- A `std::runtime_error` thrown for a statement that failed validation;
  carries the message bytes. -/
  | invalidStatement (msg : List Nat)
  /-- The `std::runtime_error` thrown by `PostgreSQLDatabase::exec` when
  `PQstatus` is not `CONNECTION_OK`. -/
  | connectionFailed (msg : List Nat)
  /-- A native engine entry point invoked on an absent or released native
  connection (NULL / dangling `sqlite3*` or `PGconn*`): undefined behavior. -/
  | nullConn
  /-- A `std::string` constructed from a NULL `const char*`: undefined
  behavior. -/
  | nullDeref
  /-- `std::stoi` / `std::stoll` applied to text with no leading integer. -/
  | stoiFail
deriving DecidableEq

instance exceptDecEq {ε α : Type} [DecidableEq ε] [DecidableEq α] :
    DecidableEq (Except ε α)
  | .ok a, .ok b =>
    if h : a = b then .isTrue (by rw [h]) else .isFalse (by intro hc; cases hc; exact h rfl)
  | .error a, .error b =>
    if h : a = b then .isTrue (by rw [h]) else .isFalse (by intro hc; cases hc; exact h rfl)
  | .ok _, .error _ => .isFalse (by intro hc; cases hc)
  | .error _, .ok _ => .isFalse (by intro hc; cases hc)

/-- Outcome of one `sqlite3_step` call. -/
inductive StepOut where
  | row (cols : EngineRow)
  | done
  | err
deriving DecidableEq

/-- Model of the row loop of the variadic `SQLite3Database::query`
(sdatabase.hpp:216-224): while `sqlite3_step` yields a row, assemble it with
`row[name] = (const char*)sqlite3_column_text(...)` (a NULL cell makes that
conversion fault) and append it; on any other step outcome the loop exits
and the rows accumulated so far are returned, with no final status check. -/
def assembleCols (acc : Row) : EngineRow → Except Fault Row
  | [] => .ok acc
  | (nm, v) :: rest =>
    match v with
    | none => .error .nullDeref
    | some s => assembleCols (assocSet acc nm s) rest

/-- Step-loop driver of the variadic `SQLite3Database::query`; see
`assembleCols`. -/
def materializeSteps (acc : List Row) : List StepOut → Except Fault (List Row)
  | [] => .ok acc
  | .row cols :: rest =>
    match assembleCols [] cols with
    | .error f => .error f
    | .ok r => materializeSteps (acc ++ [r]) rest
  | .done :: _ => .ok acc
  | .err :: _ => .ok acc

/-- File-system oracle: maps a path to the bytes of the file stored there,
`none` when no file can be opened at that path. -/
def FS : Type := List Nat → Option (List Nat)

/-- Store `v` at path `p`. -/
def fsWrite (fs : FS) (p v : List Nat) : FS :=
  fun p2 => if p2 = p then some v else fs p2

/-- Byte content the sqlite3 engine leaves in a database file once a change
has been committed: at least the 100-byte header beginning with the magic
string, hence never empty. -/
def sqliteFileBytes : List Nat := strBytes "SQLite format 3"

/-- Behavior oracle for one sqlite3 connection: the engine's response to the
calls the code makes.  `prepareOk q` is whether `sqlite3_prepare_v2`
succeeds on `q`; `steps q binds` is the sequence of `sqlite3_step` outcomes
for the prepared statement `q` with the given bind calls; `run q` is what
`sqlite3_exec` does: the rows delivered to the callback, whether the call
returned `SQLITE_OK`, and whether it committed a change to the database
file. -/
structure SqliteBehav where
  prepareOk : List Nat → Bool
  steps : List Nat → List (Nat × BoundParam) → List StepOut
  run : List Nat → List EngineRow × Bool × Bool

/-- A live `sqlite3*`: the path it was opened on, its behavior oracle, and
the value `sqlite3_last_insert_rowid` currently returns (0 on a fresh
connection, per the sqlite3 documentation). -/
structure SqliteConn where
  path : List Nat
  behav : SqliteBehav
  lastRowid : Int

/-- State of a `sdatabase::SQLite3Database` handle (sdatabase.hpp:60-63):
the native connection (`none` when absent or released), the `database`
member holding the target identifier, and the `is_good` usability flag. -/
structure SQLite3Database where
  conn : Option SqliteConn
  database : List Nat
  is_good : Bool

/-- Model of the default constructor (sdatabase.hpp:472-474). -/
def SQLite3Database.mk0 : SQLite3Database :=
  { conn := none, database := [], is_good := false }

/-- Model of the path constructor (sdatabase.hpp:463-470): on successful
`sqlite3_open` the handle stores the connection and the `database` member
and sets `is_good`; on failure it returns early.  A fresh connection's
last-insert rowid is 0. -/
def SQLite3Database.mkOpen (path : List Nat) (openOk : Bool) (b : SqliteBehav) :
    SQLite3Database :=
  if openOk then
    { conn := some { path := path, behav := b, lastRowid := 0 },
      database := path, is_good := true }
  else
    { conn := none, database := [], is_good := false }

/-- Model of `SQLite3Database::open` (sdatabase.hpp:476-486): a no-op while
usable; on successful `sqlite3_open` it sets the connection and `is_good`
but never assigns the `database` member. -/
def SQLite3Database.openDb (db : SQLite3Database) (path : List Nat) (openOk : Bool)
    (b : SqliteBehav) : SQLite3Database :=
  if db.is_good then db
  else if openOk then
    { db with conn := some { path := path, behav := b, lastRowid := 0 }, is_good := true }
  else db

/-- Model of `SQLite3Database::close` (sdatabase.hpp:556-561). -/
def SQLite3Database.close (db : SQLite3Database) : SQLite3Database :=
  if db.is_good then { db with conn := none, is_good := false } else db

/-- Model of `SQLite3Database::validate` (sdatabase.hpp:509-525): false when
the handle is not usable, otherwise whether a dry prepare succeeds. -/
def SQLite3Database.validate (db : SQLite3Database) (q : List Nat) : Except Fault Bool :=
  if db.is_good then
    match db.conn with
    | none => .error .nullConn
    | some c => .ok (c.behav.prepareOk q)
  else .ok false

/-- Message of the error thrown by the no-argument `SQLite3Database::exec`
(sdatabase.hpp:494). -/
def sqliteExecInvalidMsg (database q : List Nat) : List Nat :=
  strBytes "Invalid SQL statement in database file " ++ [aposB] ++ database
    ++ [aposB] ++ strBytes ": " ++ q ++ strBytes "\n"

/-- Message of the error thrown by the no-argument `SQLite3Database::query`
(sdatabase.hpp:533). -/
def sqliteQueryInvalidMsg (q : List Nat) : List Nat :=
  strBytes "Invalid SQL statement: " ++ q ++ strBytes "\n"

/-- Model of the no-argument `SQLite3Database::exec` (sdatabase.hpp:488-507):
sentinel `false` when unusable; a validation failure throws; otherwise
`sqlite3_exec` runs and its status is reported as a boolean.  The returned
file system reflects any committed change (the database file becomes
non-empty). -/
def SQLite3Database.exec0 (db : SQLite3Database) (q : List Nat) (fs : FS) :
    Except Fault (Bool × FS) :=
  if db.is_good then
    match db.validate q with
    | .error f => .error f
    | .ok false => .error (.invalidStatement (sqliteExecInvalidMsg db.database q))
    | .ok true =>
      match db.conn with
      | none => .error .nullConn
      | some c =>
        match c.behav.run q with
        | (_, ok, wrote) =>
          if ok then
            .ok (true, if wrote then fsWrite fs c.path sqliteFileBytes else fs)
          else .ok (false, fs)
  else .ok (false, fs)

/-- Model of the variadic `SQLite3Database::exec` (sdatabase.hpp:157-189).
It does not consult `is_good`: it rewrites the placeholders, then calls
`sqlite3_prepare_v2` on whatever `sqlite3_db` holds (a fault when the native
connection is absent or released), binds the arguments and steps once; any
step outcome other than `SQLITE_DONE` yields `false`. -/
def SQLite3Database.execArgs (db : SQLite3Database) (q : List Nat) (args : List Arg) :
    Except Fault Bool :=
  let nq := rewriteDollar q
  match db.conn with
  | none => .error .nullConn
  | some c =>
    if c.behav.prepareOk nq then
      match (c.behav.steps nq (bind_parameters args 1)).head? with
      | some .done => .ok true
      | _ => .ok false
    else .ok false

/-- Model of the variadic `SQLite3Database::query` (sdatabase.hpp:190-228):
sentinel empty set when unusable or when prepare fails; otherwise the step
loop materializes rows into a local accumulator (see `materializeSteps`). -/
def SQLite3Database.queryArgs (db : SQLite3Database) (q : List Nat) (args : List Arg) :
    Except Fault (List Row) :=
  if db.is_good then
    let nq := rewriteDollar q
    match db.conn with
    | none => .error .nullConn
    | some c =>
      if c.behav.prepareOk nq then
        materializeSteps [] (c.behav.steps nq (bind_parameters args 1))
      else .ok []
  else .ok []

/-- Model of the no-argument `SQLite3Database::query` (sdatabase.hpp:527-546)
together with the process-wide accumulator `sdatabase::tmp`
(sdatabase.hpp:44).  `tmp` is the accumulator's content before the call; the
result pairs the returned Result Set with the accumulator's content after
the call.  The callback appends every delivered row to `tmp`; on failure the
call returns the empty set leaving `tmp` as it stands; on success it returns
`std::move(tmp)`, draining the accumulator. -/
def SQLite3Database.query0 (db : SQLite3Database) (q : List Nat) (tmp : List Row) :
    Except Fault (List Row × List Row) :=
  if db.is_good then
    match db.validate q with
    | .error f => .error f
    | .ok false => .error (.invalidStatement (sqliteQueryInvalidMsg q))
    | .ok true =>
      match db.conn with
      | none => .error .nullConn
      | some c =>
        match c.behav.run q with
        | (rows, ok, _) =>
          let tmp2 := tmp ++ rows.map callbackRow
          if ok then .ok (tmp2, []) else .ok ([], tmp2)
  else .ok ([], tmp)

/-- Model of `SQLite3Database::empty` (sdatabase.hpp:563-565):
`std::ifstream(this->database).peek() == eof`, i.e. true exactly when no
file opens at the stored `database` member or the file there has zero
bytes.  The usability flag is never consulted. -/
def SQLite3Database.empty (db : SQLite3Database) (fs : FS) : Bool :=
  match fs db.database with
  | none => true
  | some content => content.isEmpty

/-- Model of `SQLite3Database::get_last_insertion` (sdatabase.hpp:573-579):
-1 when unusable, otherwise `sqlite3_last_insert_rowid`. -/
def SQLite3Database.get_last_insertion (db : SQLite3Database) : Except Fault Int :=
  if db.is_good then
    match db.conn with
    | none => .error .nullConn
    | some c => .ok c.lastRowid
  else .ok (-1)

/-- Result of a libpq call (`PQexec` / `PQexecParams` / `PQprepare`), as the
code distinguishes them by `PQresultStatus`: a command completed
(`PGRES_COMMAND_OK`), a row set (`PGRES_TUPLES_OK`), or anything else. -/
inductive PGRes where
  | commandOk
  | tuples (rows : List EngineRow)
  | err
deriving DecidableEq

/-- A live `PGconn*`: whether `PQstatus` reports `CONNECTION_OK`, the text of
`PQerrorMessage`, whether `PQprepare` succeeds on a statement, and the
result of executing a statement with a parameter vector (`PQexec` is the
empty-vector case). -/
structure PGConn where
  statusOk : Bool
  errMsg : List Nat
  prepareOk : List Nat → Bool
  exec : List Nat → List (List Nat) → PGRes

/-- State of a `sdatabase::PostgreSQLDatabase` handle (sdatabase.hpp:293-300):
the native connection, the `database` member, and the `is_good` flag.  The
host/user/password/port members play no part in any claim. -/
structure PostgreSQLDatabase where
  conn : Option PGConn
  database : List Nat
  is_good : Bool

/-- The `PQgetvalue` read of one field: the empty string for a NULL field. -/
def pgGetValue (v : Option (List Nat)) : List Nat := v.getD []

/-- Model of `std::stoi` / `std::stoll` as used on libpq field text: an
optional minus sign followed by at least one digit; no digit at all throws
(`std::invalid_argument`), modelled as `Fault.stoiFail`. -/
def parseIntE (s : List Nat) : Except Fault Int :=
  match s with
  | 45 :: rest =>
    if startsWithDigit rest then
      .ok (-(((rest.takeWhile isdigit).foldl (fun a b => a * 10 + (b - 48)) 0 : Nat) : Int))
    else .error .stoiFail
  | _ =>
    if startsWithDigit s then
      .ok (((s.takeWhile isdigit).foldl (fun a b => a * 10 + (b - 48)) 0 : Nat) : Int)
    else .error .stoiFail

/-- The catalog statement `PostgreSQLDatabase::empty` runs
(sdatabase.hpp:712). -/
def catalogSql : List Nat :=
  strBytes "SELECT COUNT(*) FROM information_schema.tables WHERE table_schema = "
    ++ [aposB] ++ strBytes "public" ++ [aposB] ++ strBytes ";"

/-- The statement `PostgreSQLDatabase::get_last_insertion` runs
(sdatabase.hpp:730). -/
def lastvalSql : List Nat := strBytes "SELECT LASTVAL();"

/-- Message of the error thrown by the no-argument `PostgreSQLDatabase::exec`
(sdatabase.hpp:630). -/
def pgExecInvalidMsg (database q : List Nat) : List Nat :=
  strBytes "Invalid SQL statement in database " ++ [aposB] ++ database
    ++ [aposB] ++ strBytes ": " ++ q ++ strBytes "\n"

/-- Message of the error thrown by the no-argument `PostgreSQLDatabase::query`
(sdatabase.hpp:666). -/
def pgQueryInvalidMsg (q : List Nat) : List Nat :=
  strBytes "Invalid SQL statement: " ++ q ++ strBytes "\n"

/-- Message of the error thrown by `PostgreSQLDatabase::exec` when `PQstatus`
is not `CONNECTION_OK` (sdatabase.hpp:626). -/
def pgConnFailedMsg (errMsg : List Nat) : List Nat :=
  strBytes "Connection to database failed: " ++ errMsg

/-- Model of the variadic `PostgreSQLDatabase::exec` (sdatabase.hpp:351-386):
sentinel `false` when unusable; otherwise rewrite `?` placeholders to
`$1..$n`, sanitize every argument's text (`remove_non_utf8(to_string(...))`),
and report whether `PQexecParams` returned `PGRES_COMMAND_OK`. -/
def PostgreSQLDatabase.execArgs (db : PostgreSQLDatabase) (q : List Nat)
    (args : List Arg) : Except Fault Bool :=
  if db.is_good then
    match db.conn with
    | none => .error .nullConn
    | some c =>
      match c.exec (rewriteQmark q 1) (args.map pgExecParamOf) with
      | .commandOk => .ok true
      | _ => .ok false
  else .ok false

/-- Model of the variadic `PostgreSQLDatabase::query` (sdatabase.hpp:388-432):
sentinel empty set when unusable; otherwise rewrite `?` placeholders, pass
the arguments through `to_string` only (no sanitizer), and materialize the
rows when `PQexecParams` returned `PGRES_TUPLES_OK`, the empty set
otherwise. -/
def PostgreSQLDatabase.queryArgs (db : PostgreSQLDatabase) (q : List Nat)
    (args : List Arg) : Except Fault (List Row) :=
  if db.is_good then
    match db.conn with
    | none => .error .nullConn
    | some c =>
      match c.exec (rewriteQmark q 1) (args.map pgQueryParamOf) with
      | .tuples rows => .ok (rows.map pgRowOf)
      | _ => .ok []
  else .ok []

/-- Model of `PostgreSQLDatabase::validate` (sdatabase.hpp:644-658). -/
def PostgreSQLDatabase.validate (db : PostgreSQLDatabase) (q : List Nat) :
    Except Fault Bool :=
  if db.is_good then
    match db.conn with
    | none => .error .nullConn
    | some c => .ok (c.prepareOk q)
  else .ok false

/-- Model of the no-argument `PostgreSQLDatabase::exec` (sdatabase.hpp:620-642):
sentinel `false` when unusable; a bad `PQstatus` throws; a validation
failure throws; otherwise `PQexec` runs and its status is reported. -/
def PostgreSQLDatabase.exec0 (db : PostgreSQLDatabase) (q : List Nat) :
    Except Fault Bool :=
  if db.is_good then
    match db.conn with
    | none => .error .nullConn
    | some c =>
      if c.statusOk then
        if c.prepareOk q then
          match c.exec q [] with
          | .commandOk => .ok true
          | _ => .ok false
        else .error (.invalidStatement (pgExecInvalidMsg db.database q))
      else .error (.connectionFailed (pgConnFailedMsg c.errMsg))
  else .ok false

/-- Model of the no-argument `PostgreSQLDatabase::query` (sdatabase.hpp:660-690):
sentinel empty set when unusable; a validation failure throws; otherwise
rows are materialized when `PQexec` returned `PGRES_TUPLES_OK`, the empty
set otherwise. -/
def PostgreSQLDatabase.query0 (db : PostgreSQLDatabase) (q : List Nat) :
    Except Fault (List Row) :=
  if db.is_good then
    match db.conn with
    | none => .error .nullConn
    | some c =>
      if c.prepareOk q then
        match c.exec q [] with
        | .tuples rows => .ok (rows.map pgRowOf)
        | _ => .ok []
      else .error (.invalidStatement (pgQueryInvalidMsg q))
  else .ok []

/-- Model of `PostgreSQLDatabase::empty` (sdatabase.hpp:707-723): true when
unusable; true when the catalog query does not return tuples; otherwise
whether the first field of the first row parses to 0. -/
def PostgreSQLDatabase.empty (db : PostgreSQLDatabase) : Except Fault Bool :=
  if db.is_good then
    match db.conn with
    | none => .error .nullConn
    | some c =>
      match c.exec catalogSql [] with
      | .tuples rows =>
        match rows with
        | ((_, v) :: _) :: _ =>
          match parseIntE (pgGetValue v) with
          | .error f => .error f
          | .ok n => .ok (n == 0)
        | _ => .error .nullDeref
      | _ => .ok true
  else .ok true

/-- Model of `PostgreSQLDatabase::get_last_insertion` (sdatabase.hpp:725-741):
-1 when unusable; -1 when `SELECT LASTVAL();` does not return tuples (libpq
reports an error before any insert in the session); otherwise the first
field parsed with `std::stoll`. -/
def PostgreSQLDatabase.get_last_insertion (db : PostgreSQLDatabase) :
    Except Fault Int :=
  if db.is_good then
    match db.conn with
    | none => .error .nullConn
    | some c =>
      match c.exec lastvalSql [] with
      | .tuples rows =>
        match rows with
        | ((_, v) :: _) :: _ => parseIntE (pgGetValue v)
        | _ => .error .nullDeref
      | _ => .ok (-1)
  else .ok (-1)

/-- A statement template in the SQLite-side neutral placeholder dialect: an
alternation of literal SQL text and `$digits` placeholders. -/
inductive Seg where
  | lit (s : List Nat)
  | ph (digits : List Nat)
deriving DecidableEq

/-- The template string a segment list denotes: a `ph` renders as `$` then
its digits. -/
def renderSqlite : List Seg → List Nat
  | [] => []
  | .lit s :: rest => s ++ renderSqlite rest
  | .ph d :: rest => dollarB :: (d ++ renderSqlite rest)

/-- The same template with each placeholder in sqlite's bare-`?` form,
digits erased. -/
def qmarkForm : List Seg → List Nat
  | [] => []
  | .lit s :: rest => s ++ qmarkForm rest
  | .ph _ :: rest => qmarkB :: qmarkForm rest

/-- Literal SQL text free of both placeholder sigils. -/
def litOk (s : List Nat) : Bool :=
  s.all (fun c => !(c == dollarB) && !(c == qmarkB))

/-- Well-formed SQLite-dialect template: every placeholder is `$` followed by
at least one digit, literals carry no sigil, and no literal digit
immediately follows a placeholder (it would be swallowed by the digit
skip). -/
def wfSqlite : List Seg → Bool
  | [] => true
  | .lit s :: rest => litOk s && wfSqlite rest
  | .ph d :: rest =>
    !d.isEmpty && d.all isdigit && !startsWithDigit (renderSqlite rest) && wfSqlite rest

/-- Value the sqlite3 engine associates with the k-th placeholder occurrence
(1-based) of a statement whose placeholders are all bare `?`: sqlite numbers
such parameters by occurrence, so occurrence `k` holds the last value bound
at index `k`. -/
def sqliteOccurrenceValue (binds : List (Nat × BoundParam)) (k : Nat) :
    Option BoundParam :=
  ((binds.filter (fun p => p.1 == k)).getLast?).map Prod.snd

/-- A statement template in the PostgreSQL-side neutral placeholder dialect:
literal SQL text and bare `?` placeholders. -/
inductive PgSeg where
  | lit (s : List Nat)
  | ph
deriving DecidableEq

/-- The template string a PG segment list denotes. -/
def renderPg : List PgSeg → List Nat
  | [] => []
  | .lit s :: rest => s ++ renderPg rest
  | .ph :: rest => qmarkB :: renderPg rest

/-- Literal PG SQL text free of the `?` sigil. -/
def pgLitOk (s : List Nat) : Bool := s.all (fun c => !(c == qmarkB))

/-- Well-formed PG-dialect template: literals carry no `?`. -/
def wfPg : List PgSeg → Bool
  | [] => true
  | .lit s :: rest => pgLitOk s && wfPg rest
  | .ph :: rest => wfPg rest

/-- The template with the k-th `?` (counting from `i`) replaced by `$k`:
the target form `PostgreSQLDatabase`'s rewrite produces. -/
def pgForm : List PgSeg → Nat → List Nat
  | [], _ => []
  | .lit s :: rest, i => s ++ pgForm rest i
  | .ph :: rest, i => dollarB :: (natBytes i ++ pgForm rest (i + 1))

/-- The `$`-numbers assigned to the placeholders, in occurrence order,
starting from `i`. -/
def pgAssigned : List PgSeg → Nat → List Nat
  | [], _ => []
  | .lit _ :: rest, i => pgAssigned rest i
  | .ph :: rest, i => i :: pgAssigned rest (i + 1)

/-- Number of placeholders of a PG template. -/
def phCount : List PgSeg → Nat
  | [] => 0
  | .lit _ :: rest => phCount rest
  | .ph :: rest => 1 + phCount rest

/-- Value the PostgreSQL engine associates with the parameter `$n` when the
parameter vector `params` is passed to `PQexecParams`: the n-th entry,
1-based. -/
def pgParamValue (params : List (List Nat)) (n : Nat) : Option (List Nat) :=
  params.get? (n - 1)

/-- A server-backed handle whose usability flag is false (default state or
after close). -/
def pgClosedHandle : PostgreSQLDatabase :=
  { conn := none, database := [], is_good := false }

/-- The parameterized INSERT statement used to exercise the unusable-handle
paths. -/
def c1Insert : List Nat := strBytes "INSERT INTO t (x) VALUES ($1)"

/-- Engine behavior for the C7 scenario: every statement prepares, runs
successfully and commits a change to the database file. -/
def c7Behav : SqliteBehav :=
  { prepareOk := fun _ => true,
    steps := fun _ _ => [StepOut.done],
    run := fun _ => ([], true, true) }

/-- The store path of the C7 scenario. -/
def c7Path : List Nat := strBytes "/tmp/fresh.db"

/-- A handle brought up with the default constructor followed by
`open(path)` — the path that never assigns the `database` member. -/
def c7Handle : SQLite3Database := SQLite3Database.mk0.openDb c7Path true c7Behav

/-- The file system of the C7 scenario: a freshly created zero-byte file at
the store path. -/
def c7Fs0 : FS := fsWrite (fun _ => none) c7Path []

/-- The table-creating statement of the C7 scenario. -/
def c7Create : List Nat := strBytes "CREATE TABLE t (x INTEGER);"

/-- Engine behavior for the C9 scenario: the prepared statement steps one
row holding a single NULL cell named `n`, then reports done. -/
def c9Behav : SqliteBehav :=
  { prepareOk := fun _ => true,
    steps := fun _ _ => [StepOut.row [(strBytes "n", none)], StepOut.done],
    run := fun _ => ([[(strBytes "n", none)]], true, false) }

/-- A usable handle over `c9Behav`. -/
def c9Handle : SQLite3Database :=
  SQLite3Database.mkOpen (strBytes "/a.db") true c9Behav

/-- A non-`$` byte is copied verbatim by the SQLite-side scan. -/
theorem rewriteGo_zero_cons_ne (c : Nat) (l : List Nat) (h : ¬ c = dollarB) :
    rewriteDollarGo 0 (c :: l) = c :: rewriteDollarGo 0 l := by
  simp [rewriteDollarGo, h]

/-- Literal text free of sigils passes through the SQLite-side scan
unchanged ahead of any continuation. -/
theorem rewriteGo_lit_append (s t : List Nat) (h : litOk s = true) :
    rewriteDollarGo 0 (s ++ t) = s ++ rewriteDollarGo 0 t := by
  induction s with
  | nil => simp
  | cons c s ih =>
    simp only [litOk, List.all_cons, Bool.and_eq_true, Bool.not_eq_eq_eq_not,
      Bool.not_true] at h
    obtain ⟨⟨hcd, hcq⟩, hs⟩ := h
    have hc : ¬ c = dollarB := by
      intro hce
      subst hce
      simp at hcd
    rw [List.cons_append, rewriteGo_zero_cons_ne c (s ++ t) hc, ih hs]
    simp

/-- Leaving the digit-skip state on a non-digit behaves like the top of the
loop. -/
theorem rewriteGo_two_of_not_digit (t : List Nat) (ht : startsWithDigit t = false) :
    rewriteDollarGo 2 t = rewriteDollarGo 0 t := by
  cases t with
  | nil => rfl
  | cons c r =>
    simp only [startsWithDigit] at ht
    by_cases hc : c = dollarB
    · subst hc
      simp [rewriteDollarGo, show isdigit dollarB = false from rfl]
    · simp [rewriteDollarGo, ht, hc]

/-- The digit-skip state consumes a whole digit run. -/
theorem rewriteGo_skip_digits (d t : List Nat) (hd : d.all isdigit = true)
    (ht : startsWithDigit t = false) :
    rewriteDollarGo 2 (d ++ t) = rewriteDollarGo 0 t := by
  induction d with
  | nil => simpa using rewriteGo_two_of_not_digit t ht
  | cons ch d ih =>
    simp only [List.all_cons, Bool.and_eq_true] at hd
    simp [rewriteDollarGo, hd.1, ih hd.2]

/-- A `$digits` placeholder becomes a single `?`, whatever its digits. -/
theorem rewriteGo_ph_step (d t : List Nat) (hne : d ≠ []) (hd : d.all isdigit = true)
    (ht : startsWithDigit t = false) :
    rewriteDollarGo 0 (dollarB :: (d ++ t)) = qmarkB :: rewriteDollarGo 0 t := by
  cases d with
  | nil => exact absurd rfl hne
  | cons ch d2 =>
    simp only [List.all_cons, Bool.and_eq_true] at hd
    simp [rewriteDollarGo, hd.1, rewriteGo_skip_digits d2 t hd.2 ht]

/-- The SQLite-side rewrite of a well-formed template is the template with
every placeholder in bare-`?` form, literals untouched. -/
theorem wfSqlite_rewrite (segs : List Seg) (h : wfSqlite segs = true) :
    rewriteDollar (renderSqlite segs) = qmarkForm segs := by
  unfold rewriteDollar
  induction segs with
  | nil => rfl
  | cons sg rest ih =>
    cases sg with
    | lit s =>
      simp only [wfSqlite, Bool.and_eq_true] at h
      rw [renderSqlite, qmarkForm, rewriteGo_lit_append s (renderSqlite rest) h.1, ih h.2]
    | ph d =>
      simp only [wfSqlite, Bool.and_eq_true] at h
      obtain ⟨⟨⟨h1, h2⟩, h3⟩, h4⟩ := h
      have hne : d ≠ [] := by
        cases d with
        | nil => simp at h1
        | cons a l => simp
      have ht : startsWithDigit (renderSqlite rest) = false := by
        cases hsd : startsWithDigit (renderSqlite rest) with
        | false => rfl
        | true => simp [hsd] at h3
      rw [renderSqlite, qmarkForm, rewriteGo_ph_step d (renderSqlite rest) hne h2 ht, ih h4]

/-- No bind call of `bind_parameters args i` targets an index below `i`. -/
theorem bind_parameters_filter_lt (args : List Arg) :
    ∀ i k : Nat, k < i →
      (bind_parameters args i).filter (fun p => p.1 == k) = [] := by
  induction args with
  | nil => intro i k _; rfl
  | cons a args ih =>
    intro i k hk
    simp only [bind_parameters, List.filter_cons]
    have h1 : (i == k) = false := by
      simp
      omega
    simp [h1, ih (i + 1) k (by omega)]

/-- The k-th argument (0-based) is the value bound at index `i + k` by
`bind_parameters args i`. -/
theorem bind_parameters_value_at (args : List Arg) :
    ∀ (i k : Nat) (h : k < args.length),
      sqliteOccurrenceValue (bind_parameters args i) (i + k)
        = some (bind_parameter args[k]) := by
  induction args with
  | nil => intro i k h; simp at h
  | cons a args ih =>
    intro i k h
    cases k with
    | zero =>
      simp only [Nat.add_zero, sqliteOccurrenceValue, List.getElem_cons_zero]
      have hfull : (bind_parameters (a :: args) i).filter (fun p => p.1 == i)
          = [(i, bind_parameter a)] := by
        simp only [bind_parameters, List.filter_cons]
        simp [bind_parameters_filter_lt args (i + 1) i (by omega)]
      rw [hfull]
      simp
    | succ k2 =>
      have hk2 : k2 < args.length := by simpa using h
      have hstep := ih (i + 1) k2 hk2
      have harith : i + 1 + k2 = i + (k2 + 1) := by omega
      rw [harith] at hstep
      simp only [sqliteOccurrenceValue] at hstep ⊢
      simp only [List.getElem_cons_succ, bind_parameters, List.filter_cons]
      have h1 : ((i : Nat) == i + (k2 + 1)) = false := by
        simp
      simp only [h1, Bool.false_eq_true, if_false]
      exact hstep

/-- Literal text free of `?` passes through the PG-side scan unchanged. -/
theorem rewriteQmark_lit_append (s : List Nat) (h : pgLitOk s = true) :
    ∀ (t : List Nat) (i : Nat), rewriteQmark (s ++ t) i = s ++ rewriteQmark t i := by
  induction s with
  | nil => intro t i; simp
  | cons c s ih =>
    intro t i
    simp only [pgLitOk, List.all_cons, Bool.and_eq_true, Bool.not_eq_eq_eq_not,
      Bool.not_true] at h
    obtain ⟨hcq, hs⟩ := h
    have hc : ¬ c = qmarkB := by
      intro hce
      subst hce
      simp at hcq
    simp only [List.cons_append, rewriteQmark, if_neg hc, List.append_eq]
    rw [ih hs]

/-- The PG-side rewrite of a well-formed template replaces the k-th `?`
(counting from `i`) by `$k`. -/
theorem wfPg_rewrite (segs : List PgSeg) (h : wfPg segs = true) :
    ∀ i : Nat, rewriteQmark (renderPg segs) i = pgForm segs i := by
  induction segs with
  | nil => intro i; rfl
  | cons sg rest ih =>
    intro i
    cases sg with
    | lit s =>
      simp only [wfPg, Bool.and_eq_true] at h
      rw [renderPg, pgForm, rewriteQmark_lit_append s h.1 (renderPg rest) i, ih h.2 i]
    | ph =>
      simp only [wfPg] at h
      simp [renderPg, pgForm, rewriteQmark, ih h (i + 1)]

/-- The numbers the PG-side rewrite assigns to the placeholders, left to
right, are consecutive from the start index. -/
theorem pgAssigned_range (segs : List PgSeg) :
    ∀ i : Nat, pgAssigned segs i = List.range' i (phCount segs) := by
  induction segs with
  | nil => intro i; rfl
  | cons sg rest ih =>
    intro i
    cases sg with
    | lit s => simp [pgAssigned, phCount, ih i]
    | ph =>
      rw [pgAssigned, phCount, ih (i + 1), Nat.add_comm 1 (phCount rest), List.range'_succ]

/-- The parameter `$`(k+1) of a mapped argument vector reads the k-th
argument. -/
theorem pgParamValue_map (args : List Arg) (f : Arg → List Nat) (k : Nat)
    (h : k < args.length) :
    pgParamValue (args.map f) (k + 1) = some (f args[k]) := by
  simp only [pgParamValue, Nat.add_sub_cancel]
  simp [List.getElem?_map, List.getElem?_eq_getElem h]

/-- C4: binding is by left-to-right occurrence order on both backends, and
digit suffixes of the neutral placeholder form have no effect.  SQLite
side: the rewrite of a well-formed `$digits` template is the template with
every occurrence as a bare `?` (so two templates agreeing up to placeholder
digits rewrite identically), and `bind_parameters args 1` makes sqlite
associate the k-th argument (0-based) with the (1+k)-th `?` occurrence.
PG side: the rewrite of a well-formed `?` template numbers the occurrences
1, 2, ... left to right, and `$`(k+1) reads the k-th entry of either
backend parameter vector, the k-th argument. -/
theorem C4_binding_occurrence_order :
    (∀ segs : List Seg, wfSqlite segs = true →
      rewriteDollar (renderSqlite segs) = qmarkForm segs) ∧
    (∀ segs segs2 : List Seg, wfSqlite segs = true → wfSqlite segs2 = true →
      qmarkForm segs = qmarkForm segs2 →
      rewriteDollar (renderSqlite segs) = rewriteDollar (renderSqlite segs2)) ∧
    (∀ (args : List Arg) (k : Nat) (h : k < args.length),
      sqliteOccurrenceValue (bind_parameters args 1) (1 + k)
        = some (bind_parameter args[k])) ∧
    (∀ segs : List PgSeg, wfPg segs = true →
      rewriteQmark (renderPg segs) 1 = pgForm segs 1 ∧
      pgAssigned segs 1 = List.range' 1 (phCount segs)) ∧
    (∀ (args : List Arg) (k : Nat) (h : k < args.length),
      pgParamValue (args.map pgExecParamOf) (k + 1) = some (pgExecParamOf args[k]) ∧
      pgParamValue (args.map pgQueryParamOf) (k + 1) = some (pgQueryParamOf args[k])) :=
  ⟨wfSqlite_rewrite,
   fun segs segs2 h h2 he => by
     rw [wfSqlite_rewrite segs h, wfSqlite_rewrite segs2 h2, he],
   fun args k h => bind_parameters_value_at args 1 k h,
   fun segs h => ⟨wfPg_rewrite segs h 1, pgAssigned_range segs 1⟩,
   fun args k h => ⟨pgParamValue_map args pgExecParamOf k h,
     pgParamValue_map args pgQueryParamOf k h⟩⟩

/-- Witness for C4 at a concrete template and argument list: the template
`SELECT * FROM t WHERE a = $2 AND b = $1` rewrites to the bare-`?` form,
agrees with its digit-swapped variant, and both arguments land on their
occurrence positions. -/
theorem C4_binding_occurrence_order_witness :
    rewriteDollar (renderSqlite
        [Seg.lit (strBytes "SELECT * FROM t WHERE a = "), Seg.ph (strBytes "2"),
         Seg.lit (strBytes " AND b = "), Seg.ph (strBytes "1")])
      = qmarkForm
        [Seg.lit (strBytes "SELECT * FROM t WHERE a = "), Seg.ph (strBytes "2"),
         Seg.lit (strBytes " AND b = "), Seg.ph (strBytes "1")] ∧
    rewriteDollar (renderSqlite
        [Seg.lit (strBytes "SELECT * FROM t WHERE a = "), Seg.ph (strBytes "2"),
         Seg.lit (strBytes " AND b = "), Seg.ph (strBytes "1")])
      = rewriteDollar (renderSqlite
        [Seg.lit (strBytes "SELECT * FROM t WHERE a = "), Seg.ph (strBytes "1"),
         Seg.lit (strBytes " AND b = "), Seg.ph (strBytes "2")]) ∧
    sqliteOccurrenceValue
        (bind_parameters [Arg.i64 7, Arg.text (strBytes "x")] 1) (1 + 1)
      = some (bind_parameter [Arg.i64 7, Arg.text (strBytes "x")][1]) ∧
    rewriteQmark (renderPg
        [PgSeg.lit (strBytes "SELECT * FROM t WHERE a = "), PgSeg.ph,
         PgSeg.lit (strBytes " AND b = "), PgSeg.ph]) 1
      = pgForm
        [PgSeg.lit (strBytes "SELECT * FROM t WHERE a = "), PgSeg.ph,
         PgSeg.lit (strBytes " AND b = "), PgSeg.ph] 1 ∧
    pgParamValue ([Arg.i64 7, Arg.text (strBytes "x")].map pgQueryParamOf) (1 + 1)
      = some (pgQueryParamOf [Arg.i64 7, Arg.text (strBytes "x")][1]) :=
  ⟨C4_binding_occurrence_order.1 _ (by decide),
   C4_binding_occurrence_order.2.1 _ _ (by decide) (by decide) (by decide),
   C4_binding_occurrence_order.2.2.1 [Arg.i64 7, Arg.text (strBytes "x")] 1 (by decide),
   (C4_binding_occurrence_order.2.2.2.1 _ (by decide)).1,
   (C4_binding_occurrence_order.2.2.2.2 [Arg.i64 7, Arg.text (strBytes "x")] 1
     (by decide)).2⟩

/-- C1: evaluation of every operation on an unusable handle on both
backends.  All guarded operations return their sentinel; the SQLite
parameterized `exec`, which never consults the usability flag, instead
reaches the engine through the absent native connection — the modelled
fault — rather than returning `false`. -/
theorem C1_unusable_sentinels_eval :
    SQLite3Database.mk0.execArgs c1Insert [Arg.i64 1] = .error .nullConn ∧
    SQLite3Database.mk0.queryArgs c1Insert [Arg.i64 1] = .ok [] ∧
    SQLite3Database.mk0.validate c1Insert = .ok false ∧
    SQLite3Database.mk0.get_last_insertion = .ok (-1) ∧
    (SQLite3Database.mk0.exec0 c1Insert (fun _ => none)).map Prod.fst = Except.ok false ∧
    SQLite3Database.mk0.query0 c1Insert [] = .ok ([], []) ∧
    pgClosedHandle.execArgs c1Insert [Arg.i64 1] = .ok false ∧
    pgClosedHandle.queryArgs c1Insert [Arg.i64 1] = .ok [] ∧
    pgClosedHandle.validate c1Insert = .ok false ∧
    pgClosedHandle.exec0 c1Insert = .ok false ∧
    pgClosedHandle.query0 c1Insert = .ok [] ∧
    pgClosedHandle.get_last_insertion = .ok (-1) := by
  refine ⟨by decide, by decide, by decide, by decide, by decide, by decide,
    by decide, by decide, by decide, by decide, by decide, by decide⟩

/-- C2 counterexample: a parameterized SQLite query whose second step fails
after one row was materialized returns that row, not the empty Result
Set. -/
theorem C2_partial_rows_counterexample :
    let nm := strBytes "a"
    let v := strBytes "1"
    let b : SqliteBehav :=
      { prepareOk := fun _ => true,
        steps := fun _ _ => [StepOut.row [(nm, some v)], StepOut.err],
        run := fun _ => ([], true, false) }
    let h := SQLite3Database.mkOpen (strBytes "/a.db") true b
    h.queryArgs (strBytes "SELECT a FROM t WHERE x = $1") [Arg.i64 1]
      = .ok [[(nm, v)]] ∧
    ([[(nm, v)]] : List Row) ≠ [] := by
  refine ⟨by decide, by decide⟩

/-- C2 amended: a failed execute yields the empty Result Set in the
no-argument query paths of both backends and in the parameterized
PostgreSQL path, but the parameterized SQLite step loop returns the rows
accumulated before the failing step. -/
theorem C2_failure_result_shape
    (db : SQLite3Database) (c : SqliteConn) (q : List Nat) (tmp : List Row)
    (rows : List EngineRow) (w : Bool)
    (hconn : db.conn = some c) (hg : db.is_good = true)
    (hprep : c.behav.prepareOk q = true)
    (hrun : c.behav.run q = (rows, false, w))
    (dbP : PostgreSQLDatabase) (cp : PGConn) (qp qp0 : List Nat) (argsP : List Arg)
    (hconnP : dbP.conn = some cp) (hgP : dbP.is_good = true)
    (hfailP : ∀ rs, cp.exec (rewriteQmark qp 1) (argsP.map pgQueryParamOf)
      ≠ PGRes.tuples rs)
    (hprep0 : cp.prepareOk qp0 = true)
    (hfail0 : ∀ rs, cp.exec qp0 [] ≠ PGRes.tuples rs) :
    db.query0 q tmp = .ok ([], tmp ++ rows.map callbackRow) ∧
    (∀ (acc : List Row) (rest : List StepOut),
      materializeSteps acc (StepOut.err :: rest) = .ok acc) ∧
    dbP.queryArgs qp argsP = .ok [] ∧
    dbP.query0 qp0 = .ok [] := by
  refine ⟨?_, fun acc rest => rfl, ?_, ?_⟩
  · simp [SQLite3Database.query0, SQLite3Database.validate, hg, hconn, hprep, hrun]
  · cases hr : cp.exec (rewriteQmark qp 1) (argsP.map pgQueryParamOf) with
    | tuples rs => exact absurd hr (hfailP rs)
    | commandOk => simp [PostgreSQLDatabase.queryArgs, hgP, hconnP, hr]
    | err => simp [PostgreSQLDatabase.queryArgs, hgP, hconnP, hr]
  · cases hr : cp.exec qp0 [] with
    | tuples rs => exact absurd hr (hfail0 rs)
    | commandOk => simp [PostgreSQLDatabase.query0, hgP, hconnP, hprep0, hr]
    | err => simp [PostgreSQLDatabase.query0, hgP, hconnP, hprep0, hr]

/-- Witness for C2 amended at concrete handles whose engines fail the
statement. -/
theorem C2_failure_result_shape_witness :
    let b : SqliteBehav :=
      { prepareOk := fun _ => true,
        steps := fun _ _ => [StepOut.err],
        run := fun _ => ([], false, false) }
    let h := SQLite3Database.mkOpen (strBytes "/a.db") true b
    let cp : PGConn :=
      { statusOk := true, errMsg := [], prepareOk := fun _ => true,
        exec := fun _ _ => PGRes.err }
    let hP : PostgreSQLDatabase :=
      { conn := some cp, database := strBytes "d", is_good := true }
    h.query0 (strBytes "SELECT a FROM t") [] = .ok ([], []) ∧
    materializeSteps [] [StepOut.err] = .ok [] ∧
    hP.queryArgs (strBytes "SELECT a FROM t WHERE x = ?") [Arg.i64 1] = .ok [] ∧
    hP.query0 (strBytes "SELECT a FROM t") = .ok [] := by
  have h2 := C2_failure_result_shape
    (SQLite3Database.mkOpen (strBytes "/a.db") true
      { prepareOk := fun _ => true,
        steps := fun _ _ => [StepOut.err],
        run := fun _ => ([], false, false) })
    { path := strBytes "/a.db",
      behav :=
        { prepareOk := fun _ => true,
          steps := fun _ _ => [StepOut.err],
          run := fun _ => ([], false, false) },
      lastRowid := 0 }
    (strBytes "SELECT a FROM t") [] [] false rfl rfl rfl rfl
    { conn := some
        { statusOk := true, errMsg := [], prepareOk := fun _ => true,
          exec := fun _ _ => PGRes.err },
      database := strBytes "d", is_good := true }
    { statusOk := true, errMsg := [], prepareOk := fun _ => true,
      exec := fun _ _ => PGRes.err }
    (strBytes "SELECT a FROM t WHERE x = ?") (strBytes "SELECT a FROM t")
    [Arg.i64 1] rfl rfl
    (fun rs h => PGRes.noConfusion h) rfl
    (fun rs h => PGRes.noConfusion h)
  refine ⟨by simpa using h2.1, h2.2.1 [] [], by simpa using h2.2.2.1,
    by simpa using h2.2.2.2⟩

/-- C3 counterexample: a failed no-argument query leaves its row in the
process-wide accumulator, and the next successful query returns that stale
row ahead of its own. -/
theorem C3_stale_accumulator_counterexample :
    let q1 := strBytes "SELECT a FROM t"
    let q2 := strBytes "SELECT b FROM u"
    let r1 : EngineRow := [(strBytes "a", some (strBytes "1"))]
    let r2 : EngineRow := [(strBytes "b", some (strBytes "2"))]
    let b : SqliteBehav :=
      { prepareOk := fun _ => true,
        steps := fun _ _ => [StepOut.done],
        run := fun q => if q = q1 then ([r1], false, false) else ([r2], true, false) }
    let h := SQLite3Database.mkOpen (strBytes "/a.db") true b
    h.query0 q1 [] = .ok ([], [callbackRow r1]) ∧
    h.query0 q2 [callbackRow r1] = .ok ([callbackRow r1, callbackRow r2], []) ∧
    ([callbackRow r1, callbackRow r2] : List Row) ≠ [callbackRow r2] := by
  refine ⟨by decide, by decide, by decide⟩

/-- C3 amended: the parameterized query paths of both backends and the
server-backed no-argument query build their Result Set fresh per call —
the file-backed step loop materializes into an accumulator that starts
empty at every call, and both server-backed paths return exactly this
call's engine rows — but the no-argument file-backed query drains the
shared accumulator: a successful call returns its prior contents followed
by this call's rows (fresh only when the accumulator was empty
beforehand), and a failed call leaves this call's rows behind in it. -/
theorem C3_accumulator_semantics
    (db : SQLite3Database) (c : SqliteConn) (q qf qa : List Nat) (tmp : List Row)
    (rows rowsf : List EngineRow) (w wf : Bool) (args : List Arg)
    (hconn : db.conn = some c) (hg : db.is_good = true)
    (hprep : c.behav.prepareOk q = true)
    (hprepf : c.behav.prepareOk qf = true)
    (hprepa : c.behav.prepareOk (rewriteDollar qa) = true)
    (hrun : c.behav.run q = (rows, true, w))
    (hrunf : c.behav.run qf = (rowsf, false, wf))
    (dbP : PostgreSQLDatabase) (cp : PGConn) (qp qp0 : List Nat) (argsP : List Arg)
    (rsP rs0 : List EngineRow)
    (hconnP : dbP.conn = some cp) (hgP : dbP.is_good = true)
    (hexecP : cp.exec (rewriteQmark qp 1) (argsP.map pgQueryParamOf)
      = PGRes.tuples rsP)
    (hprep0 : cp.prepareOk qp0 = true)
    (hexec0 : cp.exec qp0 [] = PGRes.tuples rs0) :
    db.query0 q tmp = .ok (tmp ++ rows.map callbackRow, []) ∧
    db.query0 qf tmp = .ok ([], tmp ++ rowsf.map callbackRow) ∧
    db.queryArgs qa args
      = materializeSteps [] (c.behav.steps (rewriteDollar qa) (bind_parameters args 1)) ∧
    dbP.queryArgs qp argsP = .ok (rsP.map pgRowOf) ∧
    dbP.query0 qp0 = .ok (rs0.map pgRowOf) := by
  refine ⟨?_, ?_, ?_, ?_, ?_⟩
  · simp [SQLite3Database.query0, SQLite3Database.validate, hg, hconn, hprep, hrun]
  · simp [SQLite3Database.query0, SQLite3Database.validate, hg, hconn, hprepf, hrunf]
  · simp [SQLite3Database.queryArgs, hg, hconn, hprepa]
  · simp [PostgreSQLDatabase.queryArgs, hgP, hconnP, hexecP]
  · simp [PostgreSQLDatabase.query0, hgP, hconnP, hprep0, hexec0]

/-- Witness for C3 amended at concrete handles on both backends. -/
theorem C3_accumulator_semantics_witness :
    let r1 : EngineRow := [(strBytes "a", some (strBytes "1"))]
    let r2 : EngineRow := [(strBytes "b", some (strBytes "2"))]
    let b : SqliteBehav :=
      { prepareOk := fun _ => true,
        steps := fun _ _ => [StepOut.done],
        run := fun q => if q = strBytes "SELECT a FROM t" then ([r1], true, false)
          else ([], false, false) }
    let h := SQLite3Database.mkOpen (strBytes "/a.db") true b
    let cp : PGConn :=
      { statusOk := true, errMsg := [], prepareOk := fun _ => true,
        exec := fun _ _ => PGRes.tuples [r2] }
    let hP : PostgreSQLDatabase :=
      { conn := some cp, database := strBytes "d", is_good := true }
    h.query0 (strBytes "SELECT a FROM t") [] = .ok ([callbackRow r1], []) ∧
    h.query0 (strBytes "SELECT z FROM t") [] = .ok ([], []) ∧
    h.queryArgs (strBytes "SELECT a FROM t WHERE x = $1") [Arg.i64 1] = .ok [] ∧
    hP.queryArgs (strBytes "SELECT b FROM u WHERE x = ?") [Arg.i64 1]
      = .ok [pgRowOf r2] ∧
    hP.query0 (strBytes "SELECT b FROM u") = .ok [pgRowOf r2] := by
  have h2 := C3_accumulator_semantics
    (SQLite3Database.mkOpen (strBytes "/a.db") true
      { prepareOk := fun _ => true,
        steps := fun _ _ => [StepOut.done],
        run := fun q => if q = strBytes "SELECT a FROM t"
          then ([[(strBytes "a", some (strBytes "1"))]], true, false)
          else ([], false, false) })
    { path := strBytes "/a.db",
      behav :=
        { prepareOk := fun _ => true,
          steps := fun _ _ => [StepOut.done],
          run := fun q => if q = strBytes "SELECT a FROM t"
            then ([[(strBytes "a", some (strBytes "1"))]], true, false)
            else ([], false, false) },
      lastRowid := 0 }
    (strBytes "SELECT a FROM t") (strBytes "SELECT z FROM t")
    (strBytes "SELECT a FROM t WHERE x = $1") []
    [[(strBytes "a", some (strBytes "1"))]] [] false false [Arg.i64 1]
    rfl rfl rfl rfl rfl (by decide) (by decide)
    { conn := some
        { statusOk := true, errMsg := [], prepareOk := fun _ => true,
          exec := fun _ _ => PGRes.tuples [[(strBytes "b", some (strBytes "2"))]] },
      database := strBytes "d", is_good := true }
    { statusOk := true, errMsg := [], prepareOk := fun _ => true,
      exec := fun _ _ => PGRes.tuples [[(strBytes "b", some (strBytes "2"))]] }
    (strBytes "SELECT b FROM u WHERE x = ?") (strBytes "SELECT b FROM u")
    [Arg.i64 1]
    [[(strBytes "b", some (strBytes "2"))]] [[(strBytes "b", some (strBytes "2"))]]
    rfl rfl rfl rfl rfl
  refine ⟨by simpa using h2.1, by simpa using h2.2.1, ?_, ?_, ?_⟩
  · have h3 := h2.2.2.1
    simpa using h3
  · have h4 := h2.2.2.2.1
    simpa using h4
  · have h5 := h2.2.2.2.2
    simpa using h5

/-- C5 counterexample: the server-backed parameterized query binds the text
argument `[0xFF]` verbatim, which is not what the Sanitizer would produce
for it, so not every text argument passes through the Sanitizer before
binding. -/
theorem C5_pg_query_unsanitized_counterexample :
    ¬ pgQueryParamOf (Arg.text [255]) = remove_non_utf8 [255] := by
  decide

/-- C5 amended: text arguments pass through the Sanitizer before binding in
the SQLite binder (used by both parameterized SQLite calls) and in the
server-backed parameterized exec; the server-backed parameterized query
binds text arguments verbatim, without the Sanitizer. -/
theorem C5_sanitizer_application :
    (∀ s : List Nat, bind_parameter (Arg.text s) = BoundParam.text (remove_non_utf8 s)) ∧
    (∀ s : List Nat, pgExecParamOf (Arg.text s) = remove_non_utf8 s) ∧
    (∀ s : List Nat, pgQueryParamOf (Arg.text s) = s) :=
  ⟨fun _ => rfl, fun _ => rfl, fun _ => rfl⟩

/-- C6: on a usable handle, a statement that fails validation makes the
no-argument exec and query forms of both backends raise the
invalid-statement error carrying the statement text, rather than return
the ordinary false / empty-set result. -/
theorem C6_validation_failure_raises
    (db : SQLite3Database) (c : SqliteConn) (q : List Nat) (fs : FS) (tmp : List Row)
    (hconn : db.conn = some c) (hg : db.is_good = true)
    (hv : c.behav.prepareOk q = false)
    (dbP : PostgreSQLDatabase) (cp : PGConn)
    (hconnP : dbP.conn = some cp) (hgP : dbP.is_good = true)
    (hst : cp.statusOk = true) (hvP : cp.prepareOk q = false) :
    db.exec0 q fs = .error (.invalidStatement (sqliteExecInvalidMsg db.database q)) ∧
    db.query0 q tmp = .error (.invalidStatement (sqliteQueryInvalidMsg q)) ∧
    dbP.exec0 q = .error (.invalidStatement (pgExecInvalidMsg dbP.database q)) ∧
    dbP.query0 q = .error (.invalidStatement (pgQueryInvalidMsg q)) := by
  refine ⟨?_, ?_, ?_, ?_⟩
  · simp [SQLite3Database.exec0, SQLite3Database.validate, hg, hconn, hv]
  · simp [SQLite3Database.query0, SQLite3Database.validate, hg, hconn, hv]
  · simp [PostgreSQLDatabase.exec0, hgP, hconnP, hst, hvP]
  · simp [PostgreSQLDatabase.query0, hgP, hconnP, hvP]

/-- Witness for C6 at concrete handles whose engines reject the
statement. -/
theorem C6_validation_failure_raises_witness :
    let q := strBytes "SELEKT 1"
    let b : SqliteBehav :=
      { prepareOk := fun _ => false, steps := fun _ _ => [StepOut.done],
        run := fun _ => ([], true, false) }
    let h := SQLite3Database.mkOpen (strBytes "/a.db") true b
    let cp : PGConn :=
      { statusOk := true, errMsg := [], prepareOk := fun _ => false,
        exec := fun _ _ => PGRes.err }
    let hP : PostgreSQLDatabase :=
      { conn := some cp, database := strBytes "d", is_good := true }
    h.exec0 q (fun _ => none)
      = .error (.invalidStatement (sqliteExecInvalidMsg (strBytes "/a.db") q)) ∧
    h.query0 q [] = .error (.invalidStatement (sqliteQueryInvalidMsg q)) ∧
    hP.exec0 q = .error (.invalidStatement (pgExecInvalidMsg (strBytes "d") q)) ∧
    hP.query0 q = .error (.invalidStatement (pgQueryInvalidMsg q)) := by
  have h2 := C6_validation_failure_raises
    (SQLite3Database.mkOpen (strBytes "/a.db") true
      { prepareOk := fun _ => false, steps := fun _ _ => [StepOut.done],
        run := fun _ => ([], true, false) })
    { path := strBytes "/a.db",
      behav :=
        { prepareOk := fun _ => false, steps := fun _ _ => [StepOut.done],
          run := fun _ => ([], true, false) },
      lastRowid := 0 }
    (strBytes "SELEKT 1") (fun _ => none) [] rfl rfl rfl
    { conn := some
        { statusOk := true, errMsg := [], prepareOk := fun _ => false,
          exec := fun _ _ => PGRes.err },
      database := strBytes "d", is_good := true }
    { statusOk := true, errMsg := [], prepareOk := fun _ => false,
      exec := fun _ _ => PGRes.err }
    rfl rfl rfl rfl
  exact ⟨h2.1, h2.2.1, h2.2.2.1, h2.2.2.2⟩

/-- C7: a handle brought up with the default constructor followed by
`open(path)` never records the target path (`open` does not assign the
`database` member), so `empty()` inspects the empty path: it is true on the
fresh zero-byte store, still true after a successful table-creating exec
committed bytes to the store file — where C7 expects false — while the
path-constructor handle, which does record the path, turns false. -/
theorem C7_open_path_empty_eval :
    c7Handle.empty c7Fs0 = true ∧
    c7Handle.database = [] ∧
    (c7Handle.exec0 c7Create c7Fs0).map Prod.fst = Except.ok true ∧
    (c7Handle.exec0 c7Create c7Fs0).map
      (fun r => decide ((r.2 c7Path).getD [] ≠ [])) = Except.ok true ∧
    (c7Handle.exec0 c7Create c7Fs0).map
      (fun r => SQLite3Database.empty c7Handle r.2) = Except.ok true ∧
    (SQLite3Database.mkOpen c7Path true c7Behav).empty c7Fs0 = true ∧
    (SQLite3Database.mkOpen c7Path true c7Behav).empty
      (fsWrite c7Fs0 c7Path sqliteFileBytes) = false := by
  refine ⟨by decide, by decide, by decide, by decide, by decide, by decide, by decide⟩

/-- C8 counterexample: a freshly opened (usable) file-backed handle with no
insert yet returns the engine's initial last-rowid 0, not -1. -/
theorem C8_fresh_handle_counterexample :
    let b : SqliteBehav :=
      { prepareOk := fun _ => true, steps := fun _ _ => [StepOut.done],
        run := fun _ => ([], true, true) }
    let h := SQLite3Database.mkOpen (strBytes "/a.db") true b
    h.is_good = true ∧
    h.get_last_insertion = .ok 0 ∧
    h.get_last_insertion ≠ .ok (-1) := by
  refine ⟨by decide, by decide, by decide⟩

/-- C8 amended: on the file-backed handle, `last_insert_id` returns -1 only
when the handle is unusable; a usable handle reports the engine's current
last-rowid verbatim — 0 on a fresh connection, and non-negative whenever
the engine's value is (as it is after an insert whose row identifier was
auto-generated).  On the server-backed handle, -1 is returned when the
handle is unusable or when `SELECT LASTVAL();` errors (as it does before
any insert of the session), and the parsed engine value verbatim
otherwise. -/
theorem C8_last_insertion_semantics
    (db : SQLite3Database) (c : SqliteConn) (hconn : db.conn = some c)
    (db2 : SQLite3Database) (hg2 : db2.is_good = false)
    (dbP : PostgreSQLDatabase) (cp : PGConn)
    (hconnP : dbP.conn = some cp) (hgP : dbP.is_good = true)
    (dbP2 : PostgreSQLDatabase) (hgP2 : dbP2.is_good = false) :
    (db.is_good = true → db.get_last_insertion = .ok c.lastRowid) ∧
    (0 ≤ c.lastRowid → db.is_good = true →
      ∃ r, db.get_last_insertion = .ok r ∧ 0 ≤ r) ∧
    db2.get_last_insertion = .ok (-1) ∧
    (cp.exec lastvalSql [] = PGRes.err → dbP.get_last_insertion = .ok (-1)) ∧
    (∀ (nm v : List Nat) (rest : EngineRow) (rs : List EngineRow) (r : Int),
      cp.exec lastvalSql [] = PGRes.tuples (((nm, some v) :: rest) :: rs) →
      parseIntE v = .ok r → dbP.get_last_insertion = .ok r) ∧
    dbP2.get_last_insertion = .ok (-1) := by
  refine ⟨?_, ?_, ?_, ?_, ?_, ?_⟩
  · intro hg
    simp [SQLite3Database.get_last_insertion, hg, hconn]
  · intro hr hg
    refine ⟨c.lastRowid, ?_, hr⟩
    simp [SQLite3Database.get_last_insertion, hg, hconn]
  · simp [SQLite3Database.get_last_insertion, hg2]
  · intro hl
    simp [PostgreSQLDatabase.get_last_insertion, hgP, hconnP, hl]
  · intro nm v rest rs r hl hp
    simp [PostgreSQLDatabase.get_last_insertion, hgP, hconnP, hl, pgGetValue, hp]
  · simp [PostgreSQLDatabase.get_last_insertion, hgP2]

/-- Witness for C8 amended at concrete handles: a usable file-backed handle
with last-rowid 3, an unusable one, a server-backed handle whose session
has no LASTVAL yet, and one returning 5. -/
theorem C8_last_insertion_semantics_witness :
    let b : SqliteBehav :=
      { prepareOk := fun _ => true, steps := fun _ _ => [StepOut.done],
        run := fun _ => ([], true, true) }
    let h : SQLite3Database :=
      { conn := some { path := strBytes "/a.db", behav := b, lastRowid := 3 },
        database := strBytes "/a.db", is_good := true }
    let cp : PGConn :=
      { statusOk := true, errMsg := [], prepareOk := fun _ => true,
        exec := fun _ _ => PGRes.err }
    let cp2 : PGConn :=
      { statusOk := true, errMsg := [], prepareOk := fun _ => true,
        exec := fun _ _ =>
          PGRes.tuples [[(strBytes "lastval", some (strBytes "5"))]] }
    let hP : PostgreSQLDatabase :=
      { conn := some cp, database := strBytes "d", is_good := true }
    let hP2 : PostgreSQLDatabase :=
      { conn := some cp2, database := strBytes "d", is_good := true }
    h.get_last_insertion = .ok 3 ∧
    (∃ r, h.get_last_insertion = .ok r ∧ 0 ≤ r) ∧
    SQLite3Database.mk0.get_last_insertion = .ok (-1) ∧
    hP.get_last_insertion = .ok (-1) ∧
    hP2.get_last_insertion = .ok 5 ∧
    PostgreSQLDatabase.get_last_insertion
        { conn := none, database := [], is_good := false } = .ok (-1) := by
  have hb := C8_last_insertion_semantics
    { conn := some
        { path := strBytes "/a.db",
          behav :=
            { prepareOk := fun _ => true, steps := fun _ _ => [StepOut.done],
              run := fun _ => ([], true, true) },
          lastRowid := 3 },
      database := strBytes "/a.db", is_good := true }
    { path := strBytes "/a.db",
      behav :=
        { prepareOk := fun _ => true, steps := fun _ _ => [StepOut.done],
          run := fun _ => ([], true, true) },
      lastRowid := 3 }
    rfl SQLite3Database.mk0 rfl
    { conn := some
        { statusOk := true, errMsg := [], prepareOk := fun _ => true,
          exec := fun _ _ => PGRes.err },
      database := strBytes "d", is_good := true }
    { statusOk := true, errMsg := [], prepareOk := fun _ => true,
      exec := fun _ _ => PGRes.err }
    rfl rfl
    { conn := none, database := [], is_good := false } rfl
  have hb2 := C8_last_insertion_semantics
    { conn := some
        { path := strBytes "/a.db",
          behav :=
            { prepareOk := fun _ => true, steps := fun _ _ => [StepOut.done],
              run := fun _ => ([], true, true) },
          lastRowid := 3 },
      database := strBytes "/a.db", is_good := true }
    { path := strBytes "/a.db",
      behav :=
        { prepareOk := fun _ => true, steps := fun _ _ => [StepOut.done],
          run := fun _ => ([], true, true) },
      lastRowid := 3 }
    rfl SQLite3Database.mk0 rfl
    { conn := some
        { statusOk := true, errMsg := [], prepareOk := fun _ => true,
          exec := fun _ _ =>
            PGRes.tuples [[(strBytes "lastval", some (strBytes "5"))]] },
      database := strBytes "d", is_good := true }
    { statusOk := true, errMsg := [], prepareOk := fun _ => true,
      exec := fun _ _ =>
        PGRes.tuples [[(strBytes "lastval", some (strBytes "5"))]] }
    rfl rfl
    { conn := none, database := [], is_good := false } rfl
  refine ⟨hb.1 rfl, hb.2.1 (by decide) rfl, hb.2.2.1, hb.2.2.2.1 rfl, ?_, hb.2.2.2.2.2⟩
  exact hb2.2.2.2.2.1 (strBytes "lastval") (strBytes "5") [] [] 5 rfl (by decide)

/-- C9: a NULL cell reaching the parameterized SQLite row loop is a NULL
`char*` converted straight to `std::string` — the modelled fault — while
the callback path and the PostgreSQL paths do represent it as empty
text. -/
theorem C9_null_cell_eval :
    c9Handle.queryArgs (strBytes "SELECT NULL AS n WHERE 1 = $1") [Arg.i64 1]
      = .error .nullDeref ∧
    callbackRow [(strBytes "n", none)] = [(strBytes "n", [])] ∧
    pgRowOf [(strBytes "n", none)] = [(strBytes "n", [])] := by
  refine ⟨by decide, by decide, by decide⟩

/-- C10: the file-backed `empty()` never consults the usability flag, and
the server-backed `empty()` is true whenever the flag is false or the
catalog query does not come back as a row set. -/
theorem C10_empty_ignores_flag
    (db : SQLite3Database) (fs : FS) (b : Bool)
    (dbP : PostgreSQLDatabase) (hgP : dbP.is_good = false)
    (dbP2 : PostgreSQLDatabase) (cp2 : PGConn)
    (hconn2 : dbP2.conn = some cp2) (hg2 : dbP2.is_good = true)
    (hfail : ∀ rs, cp2.exec catalogSql [] ≠ PGRes.tuples rs) :
    SQLite3Database.empty { db with is_good := b } fs = db.empty fs ∧
    dbP.empty = .ok true ∧
    dbP2.empty = .ok true := by
  refine ⟨rfl, by simp [PostgreSQLDatabase.empty, hgP], ?_⟩
  cases hr : cp2.exec catalogSql [] with
  | tuples rs => exact absurd hr (hfail rs)
  | commandOk => simp [PostgreSQLDatabase.empty, hg2, hconn2, hr]
  | err => simp [PostgreSQLDatabase.empty, hg2, hconn2, hr]

/-- Witness for C10 at concrete handles: a flag flip leaves the file-backed
`empty()` unchanged, and both an unusable server handle and one whose
catalog query errors report empty. -/
theorem C10_empty_ignores_flag_witness :
    let h : SQLite3Database :=
      { conn := none, database := strBytes "/a.db", is_good := true }
    let fs : FS := fsWrite (fun _ => none) (strBytes "/a.db") [1, 2]
    let cp2 : PGConn :=
      { statusOk := true, errMsg := [], prepareOk := fun _ => true,
        exec := fun _ _ => PGRes.err }
    SQLite3Database.empty { h with is_good := false } fs = h.empty fs ∧
    PostgreSQLDatabase.empty
        { conn := none, database := [], is_good := false } = .ok true ∧
    PostgreSQLDatabase.empty
        { conn := some cp2, database := strBytes "d", is_good := true } = .ok true := by
  have h2 := C10_empty_ignores_flag
    { conn := none, database := strBytes "/a.db", is_good := true }
    (fsWrite (fun _ => none) (strBytes "/a.db") [1, 2]) false
    { conn := none, database := [], is_good := false } rfl
    { conn := some
        { statusOk := true, errMsg := [], prepareOk := fun _ => true,
          exec := fun _ _ => PGRes.err },
      database := strBytes "d", is_good := true }
    { statusOk := true, errMsg := [], prepareOk := fun _ => true,
      exec := fun _ _ => PGRes.err }
    rfl rfl (fun rs h => PGRes.noConfusion h)
  exact ⟨h2.1, h2.2.1, h2.2.2⟩

end Sdatabase
